import Mathlib

/-!
Verification of `airbyte-ci/connectors/pipelines/pipelines/airbyte_ci/format/format_command.py`.

The file under verification defines `FormatCommand`, a CLI command that runs a
code formatter inside a container, diffs the pre-format directory against the
post-format directory, classifies the outcome as SUCCESS / FAILURE, optionally
exports the formatted code back to the host, and optionally exits the process
on failure.

The container engine (dagger) is an external collaborator.  We model it with a
flat, executable directory model: a `Directory` is a list of files, each with a
path, content and modification time.  Glob matching of the engine's
include/exclude filters is abstracted to exact path matching (the logic under
verification never inspects the patterns).  Container execution is modelled by
a function from the executed command to an outcome: a formatted directory plus
captured stdout/stderr, a distinguishable execution error (dagger.ExecError),
or any other exception.
-/

/-- A file in the external engine's directory model: path, content and
modification time. -/
structure DFile where
  path : String
  content : String
  mtime : Nat
deriving DecidableEq, Repr

/-- A directory of the external engine, modelled as a flat list of files. -/
abbrev Directory := List DFile

/-- Model of `dagger.Directory.with_timestamps t`: set every file's
modification time to `t`. -/
def withTimestamps (t : Nat) (d : Directory) : Directory :=
  d.map fun f => { f with mtime := t }

/-- Model of `dagger.Directory.diff`: the files of `post` that are absent from
`pre` or differ from their `pre` counterpart (added or changed files). -/
def diffDir (pre post : Directory) : Directory :=
  post.filter fun f => decide (f ∉ pre)

/-- Model of `dagger.Directory.entries`: the list of entry names. -/
def entries (d : Directory) : List String :=
  d.map fun f => f.path

/-- Model of `dagger.Directory.with_directory "." overlay` (also of
`dagger.Directory.export "."`): merge `overlay` into `base`, the overlay
winning on path collisions. -/
def withDirectory (base overlay : Directory) : Directory :=
  (base.filter fun f => decide (∀ g ∈ overlay, g.path ≠ f.path)) ++ overlay

/-- Model of `dagger_client.host().directory(".", include=…, exclude=…)`:
restrict the host snapshot to the included names, dropping the excluded ones
(glob matching abstracted to exact path matching). -/
def hostDirectory (host : Directory) (includes excludes : List String) : Directory :=
  host.filter fun f => decide (f.path ∈ includes ∧ f.path ∉ excludes)

/-- Modelled from the spec (the `Formatter` enum lives in
`pipelines/airbyte_ci/format/configuration.py`, which is not part of the
sources): an enumerated formatter identity, one tag per supported tool. -/
inductive Formatter where
  | java
  | js
  | license
  | python
deriving DecidableEq, Repr

/-- The string value of a formatter tag (`formatter.value` in the source). -/
def Formatter.value : Formatter → String
  | .java => "java"
  | .js => "js"
  | .license => "license"
  | .python => "python"

/-- Modelled from the spec (`DEFAULT_FORMAT_IGNORE_LIST` lives in
`pipelines/airbyte_ci/format/consts.py`, which is not part of the sources): a
fixed ignore list shared by all formatters (version-control metadata, build
artifacts, …). -/
def DEFAULT_FORMAT_IGNORE_LIST : List String :=
  [".git", "node_modules", "build", "__pycache__"]

/-- Modelled from the spec (`WARM_UP_INCLUSIONS` lives in
`pipelines/airbyte_ci/format/consts.py`, which is not part of the sources): a
static registry mapping each formatter to its warm-up inclusion file set,
possibly absent. -/
def WARM_UP_INCLUSIONS : Formatter → Option (List String)
  | .java => some ["spotless-maven-pom.xml", "java-google-style.xml"]
  | _ => none

/-- Modelled from the spec (`StepStatus` lives in `pipelines/models/steps.py`,
which is not part of the sources): the status of a command result. -/
inductive StepStatus where
  | SUCCESS
  | FAILURE
deriving DecidableEq, Repr

/-- The streams captured in a `dagger.ExecError`. -/
structure ExecErrorInfo where
  stdout : String
  stderr : String
deriving DecidableEq, Repr

/-- A Python exception escaping a container await: either a
`dagger.ExecError` carrying the captured streams, or any other exception. -/
inductive PyError where
  | execError (e : ExecErrorInfo)
  | other (msg : String)
deriving DecidableEq, Repr

/-- Modelled from the spec (`CommandResult` lives in
`pipelines/models/steps.py`, which is not part of the sources): the outcome of
one invocation — a status, the captured stdout/stderr, an optional output
artifact and optional exception info.  The back-reference to the command
itself carries no information and is omitted. -/
structure CommandResult where
  status : StepStatus
  stdout : String
  stderr : String
  output_artifact : Option Directory
  exc_info : Option ExecErrorInfo
deriving DecidableEq, Repr

/-- The observable outcome of evaluating the format container: the directory
at the repository mount path plus captured stdout/stderr, or a raised
exception. -/
inductive ExecResult where
  | ok (formattedDirectory : Directory) (stdout stderr : String)
  | execError (stdout stderr : String)
  | otherError (msg : String)

/-- Model of a `dagger.Container`: its behaviour is the outcome of executing a
command in it (`with_exec` followed by the awaits of the directory and the
stdout/stderr streams). -/
structure Container where
  run : List String → ExecResult

/-- Model of `pipelines.helpers.utils.sh_dash_c` (not part of the sources),
modelled from the spec: the commands joined with `&&` run as a single shell
invocation. -/
def sh_dash_c (commands : List String) : List String :=
  ["sh", "-c", String.intercalate " && " commands]

/-- Modelled from the spec
(`pipelines.airbyte_ci.format.actions.list_files_in_directory` is not part of
the sources): the list of file paths inside a directory. -/
def list_files_in_directory (d : Directory) : List String :=
  entries d

/-- The configuration of a `FormatCommand`, as set up by `__init__`. -/
structure FormatCommand where
  formatter : Formatter
  file_filter : List String
  get_format_container_fn : Directory → Container
  format_commands : List String
  export_formatted_code : Bool
  help : String
  enable_logging : Bool
  exit_on_failure : Bool

namespace FormatCommand

/-- `FormatCommand.get_help_message`: the help text derived from the formatter
identity and the export flag. -/
def get_help_message (formatter : Formatter) (export_formatted_code : Bool) : String :=
  let message := "Run " ++ formatter.value ++ " formatter"
  if export_formatted_code then
    message ++ ", will fix any failures."
  else
    message ++ "."

/-- `FormatCommand.__init__`: store the configuration and compute the help
text; `enable_logging` and `exit_on_failure` default to true. -/
def init (formatter : Formatter) (file_filter : List String)
    (get_format_container_fn : Directory → Container) (format_commands : List String)
    (export_formatted_code : Bool) (enable_logging : Bool)
    (exit_on_failure : Bool) : FormatCommand :=
  { formatter := formatter
    file_filter := file_filter
    get_format_container_fn := get_format_container_fn
    format_commands := format_commands
    export_formatted_code := export_formatted_code
    help := get_help_message formatter export_formatted_code
    enable_logging := enable_logging
    exit_on_failure := exit_on_failure }

/-- `FormatCommand.get_dir_to_format`: the host directory restricted by the
command's file filter and the shared ignore list. -/
def get_dir_to_format (cmd : FormatCommand) (host : Directory) : Directory :=
  hostDirectory host cmd.file_filter DEFAULT_FORMAT_IGNORE_LIST

/-- `FormatCommand.disable_logging`: set `enable_logging` to false and return
the command. -/
def disable_logging (cmd : FormatCommand) : FormatCommand :=
  { cmd with enable_logging := false }

/-- `FormatCommand.dont_exit_on_failure`: set `exit_on_failure` to false and
return the command. -/
def dont_exit_on_failure (cmd : FormatCommand) : FormatCommand :=
  { cmd with exit_on_failure := false }

/-- `FormatCommand.run_format`: run the format commands in the container and
return the diff directory together with the captured stdout and stderr.  A
formatter with a warm-up inclusion set has the warm-up directory merged into
the pre-format snapshot before the diff; both sides of the diff have their
timestamps normalized to 0.  A `dagger.ExecError` or any other exception
raised by the awaits surfaces as an `Except.error`. -/
def run_format (cmd : FormatCommand) (host : Directory) (container : Container)
    (format_commands : List String) (not_formatted_code : Directory) :
    Except PyError (Directory × String × String) :=
  match container.run (sh_dash_c format_commands) with
  | .execError stdout stderr => .error (.execError ⟨stdout, stderr⟩)
  | .otherError msg => .error (.other msg)
  | .ok formatted_directory stdout stderr =>
    let not_formatted_code :=
      match WARM_UP_INCLUSIONS cmd.formatter with
      | some warmup_inclusion =>
          withDirectory not_formatted_code
            (hostDirectory host warmup_inclusion DEFAULT_FORMAT_IGNORE_LIST)
      | none => not_formatted_code
    .ok (diffDir (withTimestamps 0 not_formatted_code) (withTimestamps 0 formatted_directory),
         stdout, stderr)

/-- `FormatCommand.get_format_command_result`: run the format commands and
build the `CommandResult`; additionally return the lists of modified file
paths logged at debug level.  A non-empty diff yields FAILURE with the diff
attached; an empty diff yields SUCCESS; a `dagger.ExecError` is caught and
yields FAILURE with the error's streams; any other exception propagates. -/
def get_format_command_result (cmd : FormatCommand) (host : Directory)
    (container : Container) (not_formatted_code : Directory) :
    Except PyError (CommandResult × List (List String)) :=
  match run_format cmd host container cmd.format_commands not_formatted_code with
  | .ok (dir_with_modified_files, stdout, stderr) =>
    if entries dir_with_modified_files ≠ [] then
      let modified_files := list_files_in_directory dir_with_modified_files
      .ok ({ status := .FAILURE, stdout := stdout, stderr := stderr,
             output_artifact := some dir_with_modified_files, exc_info := none },
           [modified_files])
    else
      .ok ({ status := .SUCCESS, stdout := stdout, stderr := stderr,
             output_artifact := none, exc_info := none }, [])
  | .error (.execError e) =>
    .ok ({ status := .FAILURE, stdout := e.stdout, stderr := e.stderr,
           output_artifact := none, exc_info := some e }, [])
  | .error (.other msg) => .error (.other msg)

/-- How one call of `invoke` ends: a `sys.exit` with a status code, a normal
return of the command result, or an uncaught exception. -/
inductive InvokeOutcome where
  | exited (code : Nat)
  | returned (r : CommandResult)
  | raised (e : PyError)
deriving DecidableEq, Repr

/-- The full observable effect of one call of `invoke`: how it ended, the host
filesystem afterwards, and whether the command results were logged to the
user. -/
structure InvokeResult where
  outcome : InvokeOutcome
  host : Directory
  logged : Bool
deriving DecidableEq, Repr

/-- `FormatCommand.invoke`: snapshot the host directory, build the container,
compute the command result, export the output artifact over the host tree when
the export flag is set, log when logging is enabled, exit the process with
code 1 on failure when `exit_on_failure` is set, and otherwise return the
result. -/
def invoke (cmd : FormatCommand) (host : Directory) : InvokeResult :=
  let dir_to_format := cmd.get_dir_to_format host
  let container := cmd.get_format_container_fn dir_to_format
  match get_format_command_result cmd host container dir_to_format with
  | .error e => { outcome := .raised e, host := host, logged := false }
  | .ok (command_result, _) =>
    let host' :=
      match command_result.output_artifact with
      | some formatted_code_dir =>
          if cmd.export_formatted_code then withDirectory host formatted_code_dir else host
      | none => host
    if command_result.status = StepStatus.FAILURE ∧ cmd.exit_on_failure = true then
      { outcome := .exited 1, host := host', logged := cmd.enable_logging }
    else
      { outcome := .returned command_result, host := host', logged := cmd.enable_logging }

end FormatCommand

/-! ## Example scenarios used by the witnesses -/

/-- A host working tree with one file `a.txt`. -/
def exHost : Directory := [⟨"a.txt", "old", 5⟩]

/-- A container whose execution succeeds and leaves `a.txt` unchanged except
for its timestamp. -/
def exContainerUnchanged : Container :=
  ⟨fun _ => .ok [⟨"a.txt", "old", 9⟩] "out" "err"⟩

/-- A container whose execution succeeds and rewrites the content of
`a.txt`. -/
def exContainerChanged : Container :=
  ⟨fun _ => .ok [⟨"a.txt", "new", 9⟩] "out" "err"⟩

/-- A container whose execution raises a `dagger.ExecError` with captured
streams. -/
def exContainerExecErr : Container :=
  ⟨fun _ => .execError "eo" "ee"⟩

/-- A container whose execution raises an exception that is not a
`dagger.ExecError`. -/
def exContainerOther : Container :=
  ⟨fun _ => .otherError "boom"⟩

/-- A python format command (no warm-up inclusions) wired to a given
container. -/
def exCmd (c : Container) (export_formatted_code exit_on_failure : Bool) : FormatCommand :=
  FormatCommand.init .python ["a.txt"] (fun _ => c) ["fmt"] export_formatted_code
    true exit_on_failure

/-- Claim C1: when the format commands execute without a container-execution
error and the timestamp-normalized diff between the pre-format and post-format
directories is empty, `get_format_command_result` returns SUCCESS with no
output artifact, carrying the container's captured stdout and stderr. -/
theorem format_success_on_empty_diff (cmd : FormatCommand) (host : Directory)
    (container : Container) (nfc d : Directory) (so se : String)
    (hrun : cmd.run_format host container cmd.format_commands nfc = .ok (d, so, se))
    (hdiff : entries d = []) :
    cmd.get_format_command_result host container nfc =
      .ok ({ status := .SUCCESS, stdout := so, stderr := se,
             output_artifact := none, exc_info := none }, []) := by
  unfold FormatCommand.get_format_command_result
  rw [hrun]
  simp [hdiff]

/-- Witness for C1: a concrete invocation where the formatter changes nothing
but timestamps is classified SUCCESS with no artifact. -/
theorem format_success_on_empty_diff_witness :
    (exCmd exContainerUnchanged false true).get_format_command_result exHost
        exContainerUnchanged exHost =
      .ok ({ status := .SUCCESS, stdout := "out", stderr := "err",
             output_artifact := none, exc_info := none }, []) :=
  format_success_on_empty_diff (exCmd exContainerUnchanged false true) exHost
    exContainerUnchanged exHost [] "out" "err" rfl rfl

/-- Claim C2: when the format commands execute without a container-execution
error and the diff directory is non-empty, `get_format_command_result` returns
FAILURE with the diff directory attached as the output artifact, and the list
of modified file paths logged at debug level equals the diff directory's
entries. -/
theorem format_failure_on_nonempty_diff (cmd : FormatCommand) (host : Directory)
    (container : Container) (nfc d : Directory) (so se : String)
    (hrun : cmd.run_format host container cmd.format_commands nfc = .ok (d, so, se))
    (hdiff : entries d ≠ []) :
    cmd.get_format_command_result host container nfc =
      .ok ({ status := .FAILURE, stdout := so, stderr := se,
             output_artifact := some d, exc_info := none }, [entries d]) := by
  unfold FormatCommand.get_format_command_result
  rw [hrun]
  simp [hdiff, list_files_in_directory]

/-- Witness for C2: a concrete invocation where the formatter rewrites `a.txt`
is classified FAILURE, the artifact is the diff containing the rewritten file,
and the logged path list is the diff's entries. -/
theorem format_failure_on_nonempty_diff_witness :
    (exCmd exContainerChanged false true).get_format_command_result exHost
        exContainerChanged exHost =
      .ok ({ status := .FAILURE, stdout := "out", stderr := "err",
             output_artifact := some [⟨"a.txt", "new", 0⟩], exc_info := none },
           [entries [⟨"a.txt", "new", 0⟩]]) :=
  format_failure_on_nonempty_diff (exCmd exContainerChanged false true) exHost
    exContainerChanged exHost [⟨"a.txt", "new", 0⟩] "out" "err" rfl (by decide)

/-- Claim C3: for every `CommandResult` produced by
`get_format_command_result`, the output artifact is set if and only if the
status is FAILURE with no exception info — i.e. FAILURE caused by a non-empty
diff — and equivalently if and only if the format run succeeded with a
non-empty diff directory; it is unset on SUCCESS and on FAILURE caused by a
container-execution error. -/
theorem format_result_artifact_iff (cmd : FormatCommand) (host : Directory)
    (container : Container) (nfc : Directory) (r : CommandResult)
    (logs : List (List String))
    (h : cmd.get_format_command_result host container nfc = .ok (r, logs)) :
    (r.output_artifact ≠ none ↔ r.status = StepStatus.FAILURE ∧ r.exc_info = none)
    ∧ (r.output_artifact ≠ none ↔
        ∃ d so se, cmd.run_format host container cmd.format_commands nfc = .ok (d, so, se)
          ∧ entries d ≠ []) := by
  unfold FormatCommand.get_format_command_result at h
  cases hr : cmd.run_format host container cmd.format_commands nfc with
  | ok x =>
    obtain ⟨d, so, se⟩ := x
    rw [hr] at h
    by_cases hd : entries d = []
    · simp [hd] at h
      obtain ⟨h1, -⟩ := h
      subst h1
      refine ⟨by simp, ?_⟩
      simp only [ne_eq, not_true_eq_false, false_iff]
      rintro ⟨d', so', se', h', hne⟩
      simp only [Except.ok.injEq, Prod.mk.injEq] at h'
      obtain ⟨h1, -, -⟩ := h'
      exact hne (h1 ▸ hd)
    · simp [hd, list_files_in_directory] at h
      obtain ⟨h1, -⟩ := h
      subst h1
      refine ⟨by simp, ?_⟩
      simp only [ne_eq, reduceCtorEq, not_false_eq_true, true_iff]
      exact ⟨d, so, se, rfl, hd⟩
  | error e =>
    cases e with
    | execError e0 =>
      rw [hr] at h
      simp at h
      obtain ⟨h1, -⟩ := h
      subst h1
      refine ⟨by simp, ?_⟩
      simp only [ne_eq, not_true_eq_false, false_iff]
      rintro ⟨d', so', se', h', -⟩
      exact Except.noConfusion h'
    | other m =>
      rw [hr] at h
      simp at h

/-- Witness for C3: the artifact/status equivalence instantiated at a concrete
invocation whose formatter rewrites `a.txt`. -/
theorem format_result_artifact_iff_witness :
    (({ status := .FAILURE, stdout := "out", stderr := "err",
        output_artifact := some [⟨"a.txt", "new", 0⟩],
        exc_info := none } : CommandResult).output_artifact ≠ none ↔
      ({ status := .FAILURE, stdout := "out", stderr := "err",
         output_artifact := some [⟨"a.txt", "new", 0⟩],
         exc_info := none } : CommandResult).status = StepStatus.FAILURE ∧
      ({ status := .FAILURE, stdout := "out", stderr := "err",
         output_artifact := some [⟨"a.txt", "new", 0⟩],
         exc_info := none } : CommandResult).exc_info = none) :=
  (format_result_artifact_iff (exCmd exContainerChanged false true) exHost
    exContainerChanged exHost
    { status := .FAILURE, stdout := "out", stderr := "err",
      output_artifact := some [⟨"a.txt", "new", 0⟩], exc_info := none }
    [["a.txt"]] rfl).1

/-- Claim C4: a `dagger.ExecError` raised while running the format commands is
caught and converted into a FAILURE result with no output artifact whose
stdout and stderr are the streams captured in the exception; any other
exception propagates uncaught out of `get_format_command_result`. -/
theorem format_exec_error_handling (cmd : FormatCommand) (host : Directory)
    (container : Container) (nfc : Directory) :
    (∀ so se, container.run (sh_dash_c cmd.format_commands) = .execError so se →
      cmd.get_format_command_result host container nfc =
        .ok ({ status := .FAILURE, stdout := so, stderr := se,
               output_artifact := none, exc_info := some ⟨so, se⟩ }, []))
    ∧ (∀ msg, container.run (sh_dash_c cmd.format_commands) = .otherError msg →
      cmd.get_format_command_result host container nfc = .error (.other msg)) := by
  constructor
  · intro so se hrun
    unfold FormatCommand.get_format_command_result FormatCommand.run_format
    rw [hrun]
  · intro msg hrun
    unfold FormatCommand.get_format_command_result FormatCommand.run_format
    rw [hrun]

/-- Witness for C4: a concrete invocation whose container raises an execution
error yields the converted FAILURE result, and one raising another exception
propagates it. -/
theorem format_exec_error_handling_witness :
    (exCmd exContainerExecErr false true).get_format_command_result exHost
        exContainerExecErr exHost =
      .ok ({ status := .FAILURE, stdout := "eo", stderr := "ee",
             output_artifact := none, exc_info := some ⟨"eo", "ee"⟩ }, []) ∧
    (exCmd exContainerOther false true).get_format_command_result exHost
        exContainerOther exHost = .error (.other "boom") :=
  ⟨(format_exec_error_handling (exCmd exContainerExecErr false true) exHost
      exContainerExecErr exHost).1 "eo" "ee" rfl,
   (format_exec_error_handling (exCmd exContainerOther false true) exHost
      exContainerOther exHost).2 "boom" rfl⟩

/-- Claim C5: `invoke` terminates the process with exit code 1 exactly when
`exit_on_failure` is enabled and the constructed `CommandResult` has status
FAILURE; in every other combination (and when no result is constructed
because an exception propagates) it does not terminate via this path, and no
exit code other than 1 is ever used. -/
theorem invoke_exit_iff (cmd : FormatCommand) (host : Directory) :
    ((cmd.invoke host).outcome = .exited 1 ↔
      cmd.exit_on_failure = true ∧
        ∃ r logs, cmd.get_format_command_result host
            (cmd.get_format_container_fn (cmd.get_dir_to_format host))
            (cmd.get_dir_to_format host) = .ok (r, logs) ∧
          r.status = StepStatus.FAILURE)
    ∧ ∀ c, (cmd.invoke host).outcome = .exited c → c = 1 := by
  simp only [FormatCommand.invoke]
  cases hg : cmd.get_format_command_result host
      (cmd.get_format_container_fn (cmd.get_dir_to_format host))
      (cmd.get_dir_to_format host) with
  | error e => simp
  | ok p =>
    obtain ⟨r, logs⟩ := p
    dsimp only
    by_cases hcond : r.status = StepStatus.FAILURE ∧ cmd.exit_on_failure = true
    · rw [if_pos hcond]
      refine ⟨⟨fun _ => ⟨hcond.2, r, logs, rfl, hcond.1⟩, fun _ => rfl⟩, ?_⟩
      intro c hc
      exact (FormatCommand.InvokeOutcome.exited.inj hc).symm
    · rw [if_neg hcond]
      refine ⟨⟨fun hc => absurd hc (by simp), fun hc => ?_⟩, ?_⟩
      · obtain ⟨he, r', logs', hr', hs'⟩ := hc
        injection hr' with hp
        injection hp with h1 h2
        exact absurd ⟨h1 ▸ hs', he⟩ hcond
      · intro c hc
        exact absurd hc (by simp)

/-- Witness for C5: a concrete failing invocation with `exit_on_failure`
enabled terminates with exit code 1. -/
theorem invoke_exit_iff_witness :
    ((exCmd exContainerChanged false true).invoke exHost).outcome =
      FormatCommand.InvokeOutcome.exited 1 :=
  (invoke_exit_iff (exCmd exContainerChanged false true) exHost).1.mpr
    ⟨rfl,
     { status := .FAILURE, stdout := "out", stderr := "err",
       output_artifact := some [⟨"a.txt", "new", 0⟩], exc_info := none },
     [["a.txt"]], rfl, rfl⟩

/-- Claim C6: the host working tree is overwritten with the output artifact's
contents at its root exactly when the export flag is set and the result has an
output artifact; with the export flag disabled, or without an artifact, or
when an exception propagates, `invoke` leaves the host filesystem unchanged. -/
theorem invoke_export_frame (cmd : FormatCommand) (host : Directory) :
    (cmd.export_formatted_code = false → (cmd.invoke host).host = host)
    ∧ (∀ r logs d, cmd.get_format_command_result host
          (cmd.get_format_container_fn (cmd.get_dir_to_format host))
          (cmd.get_dir_to_format host) = .ok (r, logs) →
        r.output_artifact = some d → cmd.export_formatted_code = true →
        (cmd.invoke host).host = withDirectory host d)
    ∧ (∀ r logs, cmd.get_format_command_result host
          (cmd.get_format_container_fn (cmd.get_dir_to_format host))
          (cmd.get_dir_to_format host) = .ok (r, logs) →
        r.output_artifact = none → (cmd.invoke host).host = host)
    ∧ (∀ e, cmd.get_format_command_result host
          (cmd.get_format_container_fn (cmd.get_dir_to_format host))
          (cmd.get_dir_to_format host) = .error e →
        (cmd.invoke host).host = host) := by
  simp only [FormatCommand.invoke]
  cases hg : cmd.get_format_command_result host
      (cmd.get_format_container_fn (cmd.get_dir_to_format host))
      (cmd.get_dir_to_format host) with
  | error e => simp
  | ok p =>
    obtain ⟨r, logs⟩ := p
    dsimp only
    refine ⟨?_, ?_, ?_, ?_⟩
    · intro hexp
      split <;> (cases r.output_artifact <;> simp [hexp])
    · intro r' logs' d hr' ha hexp
      injection hr' with hp
      injection hp with h1 h2
      subst h1
      split <;> simp [ha, hexp]
    · intro r' logs' hr' ha
      injection hr' with hp
      injection hp with h1 h2
      subst h1
      split <;> simp [ha]
    · intro e he
      exact Except.noConfusion he

/-- Witness for C6: with the export flag set and a failing formatter, the host
tree after `invoke` is the original tree overwritten with the diff artifact. -/
theorem invoke_export_frame_witness :
    ((exCmd exContainerChanged true true).invoke exHost).host =
      withDirectory exHost [⟨"a.txt", "new", 0⟩] :=
  (invoke_export_frame (exCmd exContainerChanged true true) exHost).2.1
    { status := .FAILURE, stdout := "out", stderr := "err",
      output_artifact := some [⟨"a.txt", "new", 0⟩], exc_info := none }
    [["a.txt"]] [⟨"a.txt", "new", 0⟩] rfl rfl rfl

/-- Counterexample for C7: a concrete invocation with `exit_on_failure`
enabled whose formatter rewrites `a.txt` terminates the process with exit
code 1 — `invoke` does not return the constructed `CommandResult` to its
caller in this case, refuting "invoke returns the constructed CommandResult
regardless of the outcome". -/
theorem invoke_always_returns_counterexample :
    ((exCmd exContainerChanged false true).invoke exHost).outcome =
      FormatCommand.InvokeOutcome.exited 1
    ∧ ¬ ∃ r, ((exCmd exContainerChanged false true).invoke exHost).outcome =
        FormatCommand.InvokeOutcome.returned r := by
  refine ⟨rfl, ?_⟩
  rintro ⟨r, hr⟩
  have h1 : ((exCmd exContainerChanged false true).invoke exHost).outcome =
      FormatCommand.InvokeOutcome.exited 1 := rfl
  rw [h1] at hr
  exact FormatCommand.InvokeOutcome.noConfusion hr

/-- Claim C7 (amended): whenever `get_format_command_result` yields a
`CommandResult` — container execution errors included, since they are
converted into a structured result rather than propagated — and it is not the
case that `exit_on_failure` is enabled with a FAILURE status, `invoke` returns
that `CommandResult` to its caller; in the excepted case the process
terminates instead of returning. -/
theorem invoke_returns_result_unless_exit (cmd : FormatCommand) (host : Directory)
    (r : CommandResult) (logs : List (List String))
    (h : cmd.get_format_command_result host
        (cmd.get_format_container_fn (cmd.get_dir_to_format host))
        (cmd.get_dir_to_format host) = .ok (r, logs))
    (hne : ¬ (r.status = StepStatus.FAILURE ∧ cmd.exit_on_failure = true)) :
    (cmd.invoke host).outcome = FormatCommand.InvokeOutcome.returned r := by
  simp only [FormatCommand.invoke]
  rw [h]
  dsimp only
  rw [if_neg hne]

/-- Witness for C7 (amended): a concrete successful invocation returns the
SUCCESS result to the caller. -/
theorem invoke_returns_result_unless_exit_witness :
    ((exCmd exContainerUnchanged false true).invoke exHost).outcome =
      FormatCommand.InvokeOutcome.returned
        { status := .SUCCESS, stdout := "out", stderr := "err",
          output_artifact := none, exc_info := none } :=
  invoke_returns_result_unless_exit (exCmd exContainerUnchanged false true) exHost
    { status := .SUCCESS, stdout := "out", stderr := "err",
      output_artifact := none, exc_info := none }
    [] rfl (by decide)

/-- Claim C8: `run_format` normalizes the timestamps of both the pre-format
directory (after any warm-up merge) and the post-format directory to the fixed
epoch value 0 before computing the diff, so the resulting diff depends only on
the timestamp-normalized trees — replacing either side by any tree that
agrees with it up to timestamps leaves the diff unchanged. -/
theorem run_format_timestamp_normalization (cmd : FormatCommand) (host : Directory)
    (container : Container) (format_commands : List String) (nfc fd : Directory)
    (so se : String)
    (h : container.run (sh_dash_c format_commands) = .ok fd so se) :
    ∃ pre, cmd.run_format host container format_commands nfc =
        .ok (diffDir (withTimestamps 0 pre) (withTimestamps 0 fd), so, se)
      ∧ ∀ pre2 fd2, withTimestamps 0 pre2 = withTimestamps 0 pre →
          withTimestamps 0 fd2 = withTimestamps 0 fd →
          diffDir (withTimestamps 0 pre2) (withTimestamps 0 fd2) =
            diffDir (withTimestamps 0 pre) (withTimestamps 0 fd) := by
  refine ⟨match WARM_UP_INCLUSIONS cmd.formatter with
    | some w => withDirectory nfc (hostDirectory host w DEFAULT_FORMAT_IGNORE_LIST)
    | none => nfc, ?_, ?_⟩
  · unfold FormatCommand.run_format
    rw [h]
  · intro pre2 fd2 h1 h2
    rw [h1, h2]

/-- Witness for C8: the timestamp-normalized diff equation instantiated at a
concrete invocation whose formatter only touches timestamps. -/
theorem run_format_timestamp_normalization_witness :
    ∃ pre, (exCmd exContainerUnchanged false true).run_format exHost
        exContainerUnchanged ["fmt"] exHost =
        .ok (diffDir (withTimestamps 0 pre) (withTimestamps 0 [⟨"a.txt", "old", 9⟩]),
             "out", "err")
      ∧ ∀ pre2 fd2, withTimestamps 0 pre2 = withTimestamps 0 pre →
          withTimestamps 0 fd2 = withTimestamps 0 [⟨"a.txt", "old", 9⟩] →
          diffDir (withTimestamps 0 pre2) (withTimestamps 0 fd2) =
            diffDir (withTimestamps 0 pre) (withTimestamps 0 [⟨"a.txt", "old", 9⟩]) :=
  run_format_timestamp_normalization (exCmd exContainerUnchanged false true) exHost
    exContainerUnchanged ["fmt"] exHost [⟨"a.txt", "old", 9⟩] "out" "err" rfl

/-- A host working tree containing `a.txt` and a warm-up file. -/
def exHost9 : Directory := [⟨"a.txt", "old", 5⟩, ⟨"spotless-maven-pom.xml", "pom", 3⟩]

/-- A container whose execution succeeds, touching only timestamps of `a.txt`
and of the warm-up file. -/
def exContainerJava : Container :=
  ⟨fun _ => .ok [⟨"a.txt", "old", 9⟩, ⟨"spotless-maven-pom.xml", "pom", 9⟩] "out" "err"⟩

/-- A java format command, whose formatter has a warm-up inclusion set. -/
def exCmdJava : FormatCommand :=
  FormatCommand.init .java ["a.txt"] (fun _ => exContainerJava) ["fmt"] false true true

/-- Claim C9: when the formatter has a warm-up inclusion set in the static
`WARM_UP_INCLUSIONS` mapping, `run_format` merges the warm-up host directory
(filtered by the warm-up inclusion list and the shared ignore list) into the
pre-format snapshot before diffing and applies no such merge to the
post-format directory; for formatters without a warm-up set the pre-format
snapshot is diffed unmodified. -/
theorem run_format_warmup_merge (cmd : FormatCommand) (host : Directory)
    (container : Container) (nfc fd : Directory) (so se : String)
    (h : container.run (sh_dash_c cmd.format_commands) = .ok fd so se) :
    (∀ warmup_inclusion, WARM_UP_INCLUSIONS cmd.formatter = some warmup_inclusion →
      cmd.run_format host container cmd.format_commands nfc =
        .ok (diffDir
              (withTimestamps 0 (withDirectory nfc
                (hostDirectory host warmup_inclusion DEFAULT_FORMAT_IGNORE_LIST)))
              (withTimestamps 0 fd), so, se))
    ∧ (WARM_UP_INCLUSIONS cmd.formatter = none →
      cmd.run_format host container cmd.format_commands nfc =
        .ok (diffDir (withTimestamps 0 nfc) (withTimestamps 0 fd), so, se)) := by
  constructor
  · intro w hw
    unfold FormatCommand.run_format
    rw [h]
    dsimp only
    rw [hw]
  · intro hw
    unfold FormatCommand.run_format
    rw [h]
    dsimp only
    rw [hw]

/-- Witness for C9: the warm-up merge equation instantiated at a concrete java
invocation whose `WARM_UP_INCLUSIONS` entry is present. -/
theorem run_format_warmup_merge_witness :
    exCmdJava.run_format exHost9 exContainerJava exCmdJava.format_commands exHost =
      .ok (diffDir
            (withTimestamps 0 (withDirectory exHost
              (hostDirectory exHost9 ["spotless-maven-pom.xml", "java-google-style.xml"]
                DEFAULT_FORMAT_IGNORE_LIST)))
            (withTimestamps 0 [⟨"a.txt", "old", 9⟩, ⟨"spotless-maven-pom.xml", "pom", 9⟩]),
           "out", "err") :=
  (run_format_warmup_merge exCmdJava exHost9 exContainerJava exHost
      [⟨"a.txt", "old", 9⟩, ⟨"spotless-maven-pom.xml", "pom", 9⟩] "out" "err" rfl).1
    ["spotless-maven-pom.xml", "java-google-style.xml"] rfl

/-- Claim C10: `disable_logging` sets only the `enable_logging` flag to false
and `dont_exit_on_failure` sets only the `exit_on_failure` flag to false; each
leaves every other configuration field — formatter, file filter,
container-builder function, format commands, export flag, help text, and the
other flag — unchanged on the command it returns. -/
theorem setters_set_only_their_flag (cmd : FormatCommand) :
    (cmd.disable_logging.enable_logging = false
      ∧ cmd.disable_logging.formatter = cmd.formatter
      ∧ cmd.disable_logging.file_filter = cmd.file_filter
      ∧ cmd.disable_logging.get_format_container_fn = cmd.get_format_container_fn
      ∧ cmd.disable_logging.format_commands = cmd.format_commands
      ∧ cmd.disable_logging.export_formatted_code = cmd.export_formatted_code
      ∧ cmd.disable_logging.help = cmd.help
      ∧ cmd.disable_logging.exit_on_failure = cmd.exit_on_failure)
    ∧ (cmd.dont_exit_on_failure.exit_on_failure = false
      ∧ cmd.dont_exit_on_failure.formatter = cmd.formatter
      ∧ cmd.dont_exit_on_failure.file_filter = cmd.file_filter
      ∧ cmd.dont_exit_on_failure.get_format_container_fn = cmd.get_format_container_fn
      ∧ cmd.dont_exit_on_failure.format_commands = cmd.format_commands
      ∧ cmd.dont_exit_on_failure.export_formatted_code = cmd.export_formatted_code
      ∧ cmd.dont_exit_on_failure.help = cmd.help
      ∧ cmd.dont_exit_on_failure.enable_logging = cmd.enable_logging) :=
  ⟨⟨rfl, rfl, rfl, rfl, rfl, rfl, rfl, rfl⟩,
   ⟨rfl, rfl, rfl, rfl, rfl, rfl, rfl, rfl⟩⟩
